import Mathlib

/-!
Shallow embedding of `src/lib/TabDatabase.js` (tabsquirrel-firefox).

The module manages a single lazily-opened, memoized Sqlite connection and
initializes the schema (create / migrate / no-op) before handing it out.
External collaborators (Sqlite engine, profile path, observer service) are
modelled as an environment of success/failure oracles plus explicit state:

* `DbState`    — the on-disk store: stored schema version, tables, indices.
* `Env`        — oracles: does `Sqlite.openConnection` succeed, does
                 `getSchemaVersion` succeed, does the i-th statement of the
                 creation batch succeed.
* `World`      — store plus connection-open flag and observer registration.
* `MState`     — the module-level mutable fields of the `TabDatabase` object:
                 the cached `_dbConnectionPromise`, the (never assigned)
                 `_dbMigrationPromiseDeferred`, and a count of physical opens.

Promise semantics: the JS runtime is single threaded, so a settled promise is
modelled by its outcome; `Promise.promised(Array)(promises)` initiates every
operation and rejects with the first rejection, which `runBatch` mirrors by
applying every successful operation and reporting the first failing index.
-/

/-- DB_VERSION from the source (`const DB_VERSION = 1`). -/
def DB_VERSION : Nat := 1

/-- An index description from `SCHEMA.indices`: owning table and column list. -/
structure IndexDef where
  table : String
  columns : List String
  deriving Repr, DecidableEq

/-- SCHEMA.tables: name-to-creation-statement pairs, in declaration order. -/
def SCHEMA_tables : List (String × String) :=
  [ ("squirrel_tabs",
      "CREATE TABLE squirrel_tabs (  id INTEGER PRIMARY KEY, session_id INTEGER NOT NULL, url TEXT NOT NULL, title TEXT NOT NULL, timestamp INTEGER NOT NULL)"),
    ("squirrel_sessions",
      "CREATE TABLE squirrel_sessions (  id INTEGER PRIMARY KEY, timestamp INTEGER NOT NULL)"),
    ("squirrel_sessions_tabs",
      "CREATE TABLE squirrel_sessions_tabs (  tab_id INTEGER NOT NULL, session_id INTEGER NOT NULL)") ]

/-- SCHEMA.indices: name-to-definition pairs, in declaration order. -/
def SCHEMA_indices : List (String × IndexDef) :=
  [ ("squirrel_tabs_timestamp_index", ⟨"squirrel_tabs", ["timestamp"]⟩),
    ("squirrel_sessions_timestamp_index", ⟨"squirrel_sessions", ["timestamp"]⟩),
    ("squirrel_sessions_tabs_tab_index", ⟨"squirrel_sessions_tabs", ["tab_id"]⟩),
    ("squirrel_sessions_tabs_session_index", ⟨"squirrel_sessions_tabs", ["session_id"]⟩) ]

/-- The index-creation statement built in `_dbCreate`:
`"CREATE INDEX IF NOT EXISTS " + name + " ON " + index.table + "(" + index.columns.join(", ") + ")"`. -/
def indexStatement (name : String) (idx : IndexDef) : String :=
  "CREATE INDEX IF NOT EXISTS " ++ name ++ " ON " ++ idx.table ++
    "(" ++ String.intercalate ", " idx.columns ++ ")"

/-- An engine operation issued by `_dbCreate`: a table-creation statement, an
index-creation statement (both carrying the SQL text), or `setSchemaVersion`. -/
inductive DbOp where
  | createTable : String → String → DbOp
  | createIndex : String → String → DbOp
  | setVersion : Nat → DbOp
  deriving Repr, DecidableEq

/-- On-disk store state: the engine-native schema version counter and the
names of existing tables and indices. -/
structure DbState where
  version : Nat
  tables : List String
  indices : List String
  deriving Repr, DecidableEq

/-- Effect of a successfully executed operation on the store. Index creation
uses IF NOT EXISTS semantics; table creation just records the table (the
`v == 0` fresh-store precondition means no duplicate exists). -/
def applyOp (db : DbState) : DbOp → DbState
  | .createTable name _ => { db with tables := db.tables ++ [name] }
  | .createIndex name _ =>
      if name ∈ db.indices then db else { db with indices := db.indices ++ [name] }
  | .setVersion v => { db with version := v }

/-- Error taxonomy surfaced by the acquisition pipeline. -/
inductive DbError where
  | openError
  | versionReadError
  | statementError : Nat → DbError
  deriving Repr, DecidableEq

/-- The table-creation operations pushed first in `_dbCreate`. -/
def dbCreateTableOps : List DbOp :=
  SCHEMA_tables.map fun p => DbOp.createTable p.1 p.2

/-- The index-creation operations pushed second in `_dbCreate`. -/
def dbCreateIndexOps : List DbOp :=
  SCHEMA_indices.map fun p => DbOp.createIndex p.1 (indexStatement p.1 p.2)

/-- The full batch `_dbCreate` submits: tables, then indices, then
`connection.setSchemaVersion(DB_VERSION)` — all promises are pushed before
any result is inspected. -/
def dbCreateOps : List DbOp :=
  dbCreateTableOps ++ dbCreateIndexOps ++ [DbOp.setVersion DB_VERSION]

/-- Execution of a batch of eagerly initiated operations, serialized by the
connection in submission order. The oracle `execOk i` says whether the i-th
operation succeeds; a failed operation has no effect but does not stop later
queued operations. Returns the final store and the index of the first failed
operation, if any (the joined promise rejects with the first rejection). -/
def runBatch (execOk : Nat → Bool) : Nat → DbState → List DbOp → DbState × Option Nat
  | _, db, [] => (db, none)
  | i, db, op :: ops =>
      if execOk i then
        runBatch execOk (i + 1) (applyOp db op) ops
      else
        ((runBatch execOk (i + 1) db ops).1, some i)

/-- `_dbCreate`: pushes one promise per table statement, one per index
statement, then one for the version stamp, and joins them with
`Promise.promised(Array)(promises).then()`. -/
def _dbCreate (execOk : Nat → Bool) (db : DbState) : DbState × Except DbError Unit :=
  let r := runBatch execOk 0 db dbCreateOps
  (r.1, match r.2 with
        | none => Except.ok ()
        | some i => Except.error (DbError.statementError i))

/-- `_dbMigrate`: currently resolves immediately (a deferred resolved with the
connection); no statement is executed and the stored version is untouched. -/
def _dbMigrate (db : DbState) (version : Nat) : DbState × Except DbError Unit :=
  (db, Except.ok ())

/-- Environment of external oracles: whether `Sqlite.openConnection` succeeds,
whether `connection.getSchemaVersion()` succeeds, and whether the i-th
operation of the creation batch succeeds. -/
structure Env where
  openOk : Bool
  readVersionOk : Bool
  execOk : Nat → Bool

/-- `_dbInit`: reads the stored version, then branches —
`version == 0` → `_dbCreate` then resolve `true`;
`version != DB_VERSION` → `_dbMigrate` then resolve `true`;
otherwise resolve `false`. A failed version read propagates as an error. -/
def _dbInit (env : Env) (db : DbState) : DbState × Except DbError Bool :=
  if env.readVersionOk = true then
    if db.version = 0 then
      let r := _dbCreate env.execOk db
      (r.1, Except.map (fun _ => true) r.2)
    else if db.version ≠ DB_VERSION then
      let r := _dbMigrate db db.version
      (r.1, Except.map (fun _ => true) r.2)
    else
      (db, Except.ok false)
  else
    (db, Except.error DbError.versionReadError)

/-- Decidable equality for `Except`, componentwise. -/
instance {ε α : Type} [DecidableEq ε] [DecidableEq α] : DecidableEq (Except ε α) := fun x y =>
  match x, y with
  | Except.ok a, Except.ok b =>
      if h : a = b then isTrue (by rw [h])
      else isFalse (fun hc => h (Except.ok.inj hc))
  | Except.error e, Except.error f =>
      if h : e = f then isTrue (by rw [h])
      else isFalse (fun hc => h (Except.error.inj hc))
  | Except.ok _, Except.error _ => isFalse (fun hc => Except.noConfusion hc)
  | Except.error _, Except.ok _ => isFalse (fun hc => Except.noConfusion hc)

/-- The value carried by a resolved acquisition: the connection handle with the
`isMigrated` flag stamped onto it by `_openDatabaseConnection`. -/
structure Conn where
  isMigrated : Bool
  deriving Repr, DecidableEq

/-- World outside the `TabDatabase` object: the store, whether a physical
connection is currently open, whether the `DBCloseCallback` observer is
registered on "profile-change-teardown", how many times `addObserver` ran,
and how many times the teardown handler closed the connection. -/
structure World where
  db : DbState
  connOpen : Bool
  observerRegistered : Bool
  regCount : Nat
  closeCount : Nat
  deriving Repr, DecidableEq

/-- `_openDatabaseConnection`: opens the connection; on success runs
`_dbInit`, and — `catch` — on an init failure closes the connection and
rethrows. On init success it registers the one-shot `DBCloseCallback`
observer and resolves with the connection (isMigrated set to the init flag). -/
def _openDatabaseConnection (env : Env) (w : World) : World × Except DbError Conn :=
  if env.openOk = true then
    let w1 : World := { w with connOpen := true }
    let r := _dbInit env w1.db
    match r.2 with
    | Except.ok migrated =>
        ({ w1 with db := r.1, observerRegistered := true, regCount := w1.regCount + 1 },
         Except.ok { isMigrated := migrated })
    | Except.error e =>
        ({ w1 with db := r.1, connOpen := false }, Except.error e)
  else
    (w, Except.error DbError.openError)

/-- Firing of the "profile-change-teardown" notification. If `DBCloseCallback`
is registered it first removes itself (`removeObserver`) and then closes the
connection; with no observer registered nothing happens. -/
def fireTeardown (w : World) : World :=
  if w.observerRegistered = true then
    { w with observerRegistered := false, connOpen := false,
             closeCount := w.closeCount + 1 }
  else
    w

/-- Module-level mutable state of the `TabDatabase` singleton:
`_dbConnectionPromise` (the memoized acquisition, `none` while unstarted,
`some outcome` once cached), `_dbMigrationPromiseDeferred` (a field that is
read by `getDbMigrationPromise` but never assigned anywhere in the module),
and the number of physical open-and-initialize sequences initiated. -/
structure MState where
  dbConnectionPromise : Option (Except DbError Conn)
  dbMigrationPromiseDeferred : Option Unit
  openCount : Nat
  world : World
  deriving Repr, DecidableEq

/-- The `DBConnectionPromise` getter: on the first access (`== null`) it calls
`_openDatabaseConnection`, caches the promise, and returns it; every later
access returns the cached promise unchanged. -/
def DBConnectionPromise (env : Env) (s : MState) : MState × Except DbError Conn :=
  match s.dbConnectionPromise with
  | some p => (s, p)
  | none =>
      let r := _openDatabaseConnection env s.world
      ({ s with dbConnectionPromise := some r.2,
                openCount := s.openCount + 1,
                world := r.1 },
       r.2)

/-- A JavaScript runtime error, as thrown by reading a property of undefined. -/
inductive JSError where
  | typeError
  deriving Repr, DecidableEq

/-- `getDbMigrationPromise`: returns `this._dbMigrationPromiseDeferred.promise`.
Reading `.promise` off an undefined field throws a TypeError. -/
def getDbMigrationPromise (s : MState) : Except JSError Unit :=
  match s.dbMigrationPromiseDeferred with
  | some d => Except.ok d
  | none => Except.error JSError.typeError

/-- Module state at load time for a store in state `db`: no cached promise,
`_dbMigrationPromiseDeferred` undefined, no open performed, no observer. -/
def mkInitial (db : DbState) : MState :=
  { dbConnectionPromise := none,
    dbMigrationPromiseDeferred := none,
    openCount := 0,
    world := { db := db, connOpen := false, observerRegistered := false,
               regCount := 0, closeCount := 0 } }

/-- A sequence of `n` accesses to the `DBConnectionPromise` getter, returning
the final module state and the outcome each caller received, in order. -/
def runCalls (env : Env) : Nat → MState → MState × List (Except DbError Conn)
  | 0, s => (s, [])
  | n + 1, s =>
      let r1 := DBConnectionPromise env s
      let r2 := runCalls env n r1.1
      (r2.1, r1.2 :: r2.2)

/-- A fresh store: version 0, no tables, no indices. -/
def freshDb : DbState := { version := 0, tables := [], indices := [] }

/-- An environment in which the open, the version read and every statement
succeed. -/
def allOkEnv : Env := { openOk := true, readVersionOk := true, execOk := fun _ => true }

/-- An oracle under which the very first statement of the creation batch
fails and every later operation (including the version stamp) succeeds. -/
def failFirstExec : Nat → Bool := fun i => decide (1 ≤ i)

/-- A store whose stored version is 2: neither fresh (0) nor at DB_VERSION. -/
def staleDb : DbState := { version := 2, tables := ["squirrel_tabs"], indices := [] }

/-- An environment in which the open succeeds but the schema-version read
fails. -/
def failReadEnv : Env := { openOk := true, readVersionOk := false, execOk := fun _ => true }

/-- The world right after a successful first acquisition on a fresh store:
connection open, teardown observer registered once. -/
def openedWorld : World :=
  { db := freshDb, connOpen := true, observerRegistered := true, regCount := 1, closeCount := 0 }

lemma DBConnectionPromise_of_some {env : Env} {s : MState} {p : Except DbError Conn}
    (h : s.dbConnectionPromise = some p) :
    DBConnectionPromise env s = (s, p) := by
  simp [DBConnectionPromise, h]

lemma DBConnectionPromise_fst_cached (env : Env) (s : MState) :
    (DBConnectionPromise env s).1.dbConnectionPromise = some ((DBConnectionPromise env s).2) := by
  rcases h : s.dbConnectionPromise with _ | p <;> simp [DBConnectionPromise, h]

lemma DBConnectionPromise_deferred (env : Env) (s : MState) :
    (DBConnectionPromise env s).1.dbMigrationPromiseDeferred = s.dbMigrationPromiseDeferred := by
  rcases h : s.dbConnectionPromise with _ | p <;> simp [DBConnectionPromise, h]

lemma runCalls_of_some {env : Env} {s : MState} {p : Except DbError Conn} (n : Nat)
    (h : s.dbConnectionPromise = some p) :
    runCalls env n s = (s, List.replicate n p) := by
  induction n with
  | zero => simp [runCalls]
  | succ n ih => simp [runCalls, DBConnectionPromise_of_some h, ih, List.replicate]

lemma runCalls_succ_eq (env : Env) (n : Nat) (s : MState) :
    runCalls env (n + 1) s
      = ((DBConnectionPromise env s).1,
         List.replicate (n + 1) ((DBConnectionPromise env s).2)) := by
  simp [runCalls, runCalls_of_some n (DBConnectionPromise_fst_cached env s), List.replicate]

lemma runBatch_congr {f g : Nat → Bool} (h : ∀ i, f i = g i) :
    ∀ (i : Nat) (db : DbState) (ops : List DbOp), runBatch f i db ops = runBatch g i db ops := by
  intro i db ops
  induction ops generalizing i db with
  | nil => simp [runBatch]
  | cons op ops ih => simp [runBatch, h, ih]

lemma runBatch_fst_append (execOk : Nat → Bool) (i : Nat) (db : DbState) (xs ys : List DbOp) :
    (runBatch execOk i db (xs ++ ys)).1
      = (runBatch execOk (i + xs.length) (runBatch execOk i db xs).1 ys).1 := by
  induction xs generalizing i db with
  | nil => simp [runBatch]
  | cons op xs ih =>
      have harith : i + (xs.length + 1) = i + 1 + xs.length := by omega
      by_cases h : execOk i = true <;>
        simp [runBatch, h, ih, harith, List.append_eq]

lemma runBatch_version_eq (execOk : Nat → Bool) (i : Nat) (db : DbState) (ops : List DbOp)
    (h : ∀ op ∈ ops, ∀ d : DbState, (applyOp d op).version = d.version) :
    (runBatch execOk i db ops).1.version = db.version := by
  induction ops generalizing i db with
  | nil => simp [runBatch]
  | cons op ops ih =>
      have hop := h op (List.mem_cons_self _ _)
      have hrest : ∀ o ∈ ops, ∀ d : DbState, (applyOp d o).version = d.version :=
        fun o ho d => h o (List.mem_cons_of_mem _ ho) d
      simp only [runBatch]
      by_cases hx : execOk i = true
      · rw [if_pos hx, ih _ _ hrest, hop]
      · rw [if_neg hx]
        exact ih _ _ hrest

lemma runBatch_snd_none_iff (execOk : Nat → Bool) (i : Nat) (db : DbState) (ops : List DbOp) :
    (runBatch execOk i db ops).2 = none ↔ ∀ j, j < ops.length → execOk (i + j) = true := by
  induction ops generalizing i db with
  | nil => simp [runBatch]
  | cons op ops ih =>
      simp only [runBatch, List.length_cons]
      by_cases hx : execOk i = true
      · rw [if_pos hx, ih]
        constructor
        · intro h j hj
          cases j with
          | zero => simpa using hx
          | succ j =>
              have := h j (by omega)
              have harith : i + 1 + j = i + (j + 1) := by omega
              rw [harith] at this
              exact this
        · intro h j hj
          have := h (j + 1) (by omega)
          have harith : i + (j + 1) = i + 1 + j := by omega
          rw [harith] at this
          exact this
      · rw [if_neg hx]
        constructor
        · intro h
          exact Option.noConfusion h
        · intro h
          exact absurd (by simpa using h 0 (by omega)) hx

lemma creationOps_preserve_version :
    ∀ op ∈ dbCreateTableOps ++ dbCreateIndexOps, ∀ d : DbState,
      (applyOp d op).version = d.version := by
  intro op hop d
  fin_cases hop <;> simp only [applyOp] <;> first
    | rfl
    | (split <;> rfl)

lemma dbCreate_fst_version (execOk : Nat → Bool) (db : DbState) :
    (_dbCreate execOk db).1.version = if execOk 7 = true then DB_VERSION else db.version := by
  have hsplit :
      (runBatch execOk 0 db dbCreateOps).1
        = (runBatch execOk 7
            (runBatch execOk 0 db (dbCreateTableOps ++ dbCreateIndexOps)).1
            [DbOp.setVersion DB_VERSION]).1 := by
    have h := runBatch_fst_append execOk 0 db (dbCreateTableOps ++ dbCreateIndexOps)
      [DbOp.setVersion DB_VERSION]
    have hlen : (dbCreateTableOps ++ dbCreateIndexOps).length = 7 := by
      simp [dbCreateTableOps, dbCreateIndexOps, SCHEMA_tables, SCHEMA_indices]
    rw [hlen] at h
    simpa [dbCreateOps, List.append_assoc] using h
  have hmid : (runBatch execOk 0 db (dbCreateTableOps ++ dbCreateIndexOps)).1.version
      = db.version :=
    runBatch_version_eq execOk 0 db _ creationOps_preserve_version
  have h1 : (_dbCreate execOk db).1 = (runBatch execOk 0 db dbCreateOps).1 := rfl
  rw [h1, hsplit]
  generalize hm : (runBatch execOk 0 db (dbCreateTableOps ++ dbCreateIndexOps)).1 = mid
  rw [hm] at hmid
  by_cases hx : execOk 7 = true
  · simp [runBatch, hx, applyOp, DB_VERSION]
  · simp [runBatch, hx, hmid]

lemma dbCreate_ok_iff (execOk : Nat → Bool) (db : DbState) :
    (_dbCreate execOk db).2 = Except.ok () ↔ ∀ i, i < 8 → execOk i = true := by
  have hlen : dbCreateOps.length = 8 := by
    simp [dbCreateOps, dbCreateTableOps, dbCreateIndexOps, SCHEMA_tables, SCHEMA_indices]
  have hiff := runBatch_snd_none_iff execOk 0 db dbCreateOps
  rw [hlen] at hiff
  have hmatch : (_dbCreate execOk db).2
      = (match (runBatch execOk 0 db dbCreateOps).2 with
         | none => Except.ok ()
         | some i => Except.error (DbError.statementError i)) := rfl
  rw [hmatch]
  rcases h : (runBatch execOk 0 db dbCreateOps).2 with _ | j
  · constructor
    · intro _ i hi
      simpa using (hiff.mp h) i hi
    · intro _
      rfl
  · constructor
    · intro hc
      exact Except.noConfusion hc
    · intro hall
      have hnone : (runBatch execOk 0 db dbCreateOps).2 = none :=
        hiff.mpr (fun j hj => by simpa using hall j hj)
      rw [h] at hnone
      exact Option.noConfusion hnone

lemma mkInitial_world_db (db : DbState) : (mkInitial db).world.db = db := rfl

lemma getter_initial_world (env : Env) (db : DbState) :
    (DBConnectionPromise env (mkInitial db)).1.world
      = (_openDatabaseConnection env (mkInitial db).world).1 := rfl

lemma getter_initial_outcome (env : Env) (db : DbState) :
    (DBConnectionPromise env (mkInitial db)).2
      = (_openDatabaseConnection env (mkInitial db).world).2 := rfl

lemma dbInit_ok_version (env : Env) (db : DbState) (b : Bool)
    (h : (_dbInit env db).2 = Except.ok b) :
    (_dbInit env db).1.version
      = if db.version = 0 ∨ db.version = DB_VERSION then DB_VERSION else db.version := by
  by_cases hr : env.readVersionOk = true
  · by_cases h0 : db.version = 0
    · have hd : _dbInit env db
          = ((_dbCreate env.execOk db).1,
             Except.map (fun _ => true) (_dbCreate env.execOk db).2) := by
        simp [_dbInit, hr, h0]
      rw [hd] at h ⊢
      rcases hc : (_dbCreate env.execOk db).2 with e | u
      · rw [hc] at h
        exact Except.noConfusion h
      · have hall : ∀ i, i < 8 → env.execOk i = true := (dbCreate_ok_iff env.execOk db).mp hc
        have h7 : env.execOk 7 = true := hall 7 (by omega)
        rw [if_pos (Or.inl h0)]
        rw [dbCreate_fst_version env.execOk db, if_pos h7]
    · by_cases h1 : db.version = DB_VERSION
      · have hd : _dbInit env db = (db, Except.ok false) := by
          simp [_dbInit, hr, h0, h1, DB_VERSION]
        rw [hd, if_pos (Or.inr h1)]
        exact h1
      · have hd : _dbInit env db = (db, Except.ok true) := by
          simp [_dbInit, _dbMigrate, hr, h0, h1, Except.map]
        rw [hd]
        rw [if_neg (by tauto)]
  · have hd : _dbInit env db = (db, Except.error DbError.versionReadError) := by
      simp [_dbInit, hr]
    rw [hd] at h
    exact Except.noConfusion h

lemma openDB_fail_spec (env : Env) (w : World) (h : env.openOk = false) :
    _openDatabaseConnection env w = (w, Except.error DbError.openError) := by
  simp [_openDatabaseConnection, h]

lemma openDB_ok_spec (env : Env) (w : World) (m : Bool)
    (ho : env.openOk = true) (hi : (_dbInit env w.db).2 = Except.ok m) :
    _openDatabaseConnection env w
      = ({ w with db := (_dbInit env w.db).1, connOpen := true,
                  observerRegistered := true, regCount := w.regCount + 1 },
         Except.ok { isMigrated := m }) := by
  simp [_openDatabaseConnection, ho, hi]

lemma openDB_err_spec (env : Env) (w : World) (e : DbError)
    (ho : env.openOk = true) (hi : (_dbInit env w.db).2 = Except.error e) :
    _openDatabaseConnection env w
      = ({ w with db := (_dbInit env w.db).1, connOpen := false },
         Except.error e) := by
  simp [_openDatabaseConnection, ho, hi]

lemma openDB_regCount_le (env : Env) (w : World) :
    (_openDatabaseConnection env w).1.regCount ≤ w.regCount + 1 := by
  by_cases ho : env.openOk = true
  · rcases hi : (_dbInit env w.db).2 with e | m
    · rw [openDB_err_spec env w e ho hi]
      exact Nat.le_succ w.regCount
    · rw [openDB_ok_spec env w m ho hi]
  · rw [openDB_fail_spec env w (by simpa using ho)]
    exact Nat.le_succ w.regCount

/-- Claim C1: for every sequence of accesses to the `DBConnectionPromise`
getter, the open-and-initialize sequence executes exactly once (and at most
once for any number of accesses), and every caller receives the same cached
outcome as the first caller. -/
theorem c1_memoized_single_open :
    ∀ (env : Env) (db : DbState) (n : Nat), 1 ≤ n →
      runCalls env n (mkInitial db)
        = ((DBConnectionPromise env (mkInitial db)).1,
           List.replicate n ((DBConnectionPromise env (mkInitial db)).2))
      ∧ (DBConnectionPromise env (mkInitial db)).1.openCount = 1
      ∧ (∀ m : Nat, (runCalls env m (mkInitial db)).1.openCount ≤ 1) := by
  intro env db n hn
  refine ⟨?_, rfl, ?_⟩
  · obtain ⟨m, rfl⟩ : ∃ m, n = m + 1 := ⟨n - 1, by omega⟩
    exact runCalls_succ_eq env m (mkInitial db)
  · intro m
    cases m with
    | zero => exact Nat.zero_le 1
    | succ m =>
        rw [runCalls_succ_eq]
        exact Nat.le_refl 1

/-- Witness for C1 at a concrete environment, store and call count. -/
theorem c1_memoized_single_open_witness :
    1 ≤ 2
    ∧ runCalls allOkEnv 2 (mkInitial freshDb)
        = ((DBConnectionPromise allOkEnv (mkInitial freshDb)).1,
           List.replicate 2 ((DBConnectionPromise allOkEnv (mkInitial freshDb)).2))
    ∧ (DBConnectionPromise allOkEnv (mkInitial freshDb)).1.openCount = 1 :=
  ⟨by decide,
   (c1_memoized_single_open allOkEnv freshDb 2 (by decide)).1,
   (c1_memoized_single_open allOkEnv freshDb 2 (by decide)).2.1⟩

/-- Claim C9: the acquisition state is terminal once settled — after any
access the cached promise is set, and on a state whose promise is cached every
later access (under any environment, so no re-attempt of the open) returns
the same settled result and leaves the state unchanged. -/
theorem c9_settled_state_terminal :
    (∀ (env : Env) (s : MState),
        (DBConnectionPromise env s).1.dbConnectionPromise
          = some ((DBConnectionPromise env s).2))
    ∧ (∀ (env2 : Env) (s : MState) (p : Except DbError Conn),
        s.dbConnectionPromise = some p → DBConnectionPromise env2 s = (s, p)) :=
  ⟨DBConnectionPromise_fst_cached, fun _ _ _ h => DBConnectionPromise_of_some h⟩

/-- Witness for C9 at a concrete settled state. -/
theorem c9_settled_state_terminal_witness :
    DBConnectionPromise allOkEnv
        { dbConnectionPromise := some (Except.ok { isMigrated := false }),
          dbMigrationPromiseDeferred := none, openCount := 1,
          world := (mkInitial freshDb).world }
      = ({ dbConnectionPromise := some (Except.ok { isMigrated := false }),
           dbMigrationPromiseDeferred := none, openCount := 1,
           world := (mkInitial freshDb).world },
         Except.ok { isMigrated := false }) :=
  c9_settled_state_terminal.2 allOkEnv _ _ rfl

/-- Claim C4: `_dbInit` dispatch — a failed version read propagates as an
error; `v = 0` delegates to `_dbCreate` and maps its success to `true`;
`v = DB_VERSION` is a no-op resolving `false`; every other `v` delegates to
the migrator and resolves `true`. -/
theorem c4_dbInit_dispatch :
    ∀ (env : Env) (db : DbState),
      (env.readVersionOk = false →
          _dbInit env db = (db, Except.error DbError.versionReadError))
      ∧ (env.readVersionOk = true → db.version = 0 →
          _dbInit env db
            = ((_dbCreate env.execOk db).1,
               Except.map (fun _ => true) (_dbCreate env.execOk db).2))
      ∧ (env.readVersionOk = true → db.version = DB_VERSION →
          _dbInit env db = (db, Except.ok false))
      ∧ (env.readVersionOk = true → db.version ≠ 0 → db.version ≠ DB_VERSION →
          _dbInit env db = (db, Except.ok true)) := by
  intro env db
  refine ⟨?_, ?_, ?_, ?_⟩
  · intro h
    simp [_dbInit, h]
  · intro h h0
    simp [_dbInit, h, h0]
  · intro h h1
    simp [_dbInit, h, h1, DB_VERSION]
  · intro h h0 h1
    simp [_dbInit, _dbMigrate, h, h0, h1, Except.map]

/-- Witness for C4 on the create and no-op branches. -/
theorem c4_dbInit_dispatch_witness :
    _dbInit allOkEnv freshDb
        = ((_dbCreate allOkEnv.execOk freshDb).1,
           Except.map (fun _ => true) (_dbCreate allOkEnv.execOk freshDb).2)
    ∧ _dbInit allOkEnv { version := 1, tables := [], indices := [] }
        = ({ version := 1, tables := [], indices := [] }, Except.ok false) :=
  ⟨(c4_dbInit_dispatch allOkEnv freshDb).2.1 rfl rfl,
   (c4_dbInit_dispatch allOkEnv { version := 1, tables := [], indices := [] }).2.2.1 rfl rfl⟩

/-- Claim C10: for any stored version other than 0 and DB_VERSION (including
versions above DB_VERSION), `_dbInit` delegates to `_dbMigrate`, which
resolves successfully without executing any statement or touching the store,
and the initializer reports `true`. -/
theorem c10_offpath_version_migrate_noop :
    ∀ (env : Env) (db : DbState),
      env.readVersionOk = true → db.version ≠ 0 → db.version ≠ DB_VERSION →
      _dbInit env db = (db, Except.ok true)
      ∧ _dbMigrate db db.version = (db, Except.ok ()) := by
  intro env db h h0 h1
  exact ⟨by simp [_dbInit, _dbMigrate, h, h0, h1, Except.map], rfl⟩

/-- Witness for C10 at stored version 2 (a downgrade scenario). -/
theorem c10_offpath_version_migrate_noop_witness :
    _dbInit allOkEnv staleDb = (staleDb, Except.ok true)
    ∧ _dbMigrate staleDb staleDb.version = (staleDb, Except.ok ()) :=
  c10_offpath_version_migrate_noop allOkEnv staleDb rfl (by decide) (by decide)

/-- Counterexample to claim C2: with the first table-creation statement
failing and every later operation succeeding, `_dbCreate` fails as a whole
and yet the stored version has been stamped to DB_VERSION — it is not left
unstamped at 0, because the `setSchemaVersion` promise is pushed into the
batch unconditionally rather than after the creation statements succeed. -/
theorem c2_stamp_counterexample :
    (_dbCreate failFirstExec freshDb).2 = Except.error (DbError.statementError 0)
    ∧ (_dbCreate failFirstExec freshDb).1.version = DB_VERSION
    ∧ DB_VERSION ≠ 0 := by
  refine ⟨by decide, by decide, by decide⟩

/-- Claim C2 as amended: `_dbCreate` succeeds iff all eight batch operations
(three tables, four indices, one version stamp) succeed, and the version
stamp is issued unconditionally as the last submitted operation — the final
stored version is DB_VERSION exactly when the stamp operation itself
succeeded, regardless of whether the creation statements failed. -/
theorem c2_amended_unconditional_stamp :
    ∀ (execOk : Nat → Bool) (db : DbState),
      ((_dbCreate execOk db).2 = Except.ok () ↔ ∀ i, i < 8 → execOk i = true)
      ∧ (_dbCreate execOk db).1.version
          = (if execOk 7 = true then DB_VERSION else db.version) := by
  intro execOk db
  exact ⟨dbCreate_ok_iff execOk db, dbCreate_fst_version execOk db⟩

/-- Witness for the amended C2 at a concrete failing oracle. -/
theorem c2_amended_unconditional_stamp_witness :
    ((_dbCreate failFirstExec freshDb).2 = Except.ok ()
        ↔ ∀ i, i < 8 → failFirstExec i = true)
    ∧ (_dbCreate failFirstExec freshDb).1.version
        = (if failFirstExec 7 = true then DB_VERSION else freshDb.version) :=
  c2_amended_unconditional_stamp failFirstExec freshDb

/-- Counterexample to claim C3: on a store at version 2 (routed through the
migrator) the acquisition settles Ready, but the stored version is still 2,
not DB_VERSION — the placeholder migrator never stamps the version. -/
theorem c3_ready_version_counterexample :
    (DBConnectionPromise allOkEnv (mkInitial staleDb)).2
        = Except.ok { isMigrated := true }
    ∧ (DBConnectionPromise allOkEnv (mkInitial staleDb)).1.world.db.version ≠ DB_VERSION := by
  refine ⟨by decide, by decide⟩

/-- Claim C3 as amended: when acquisition settles Ready, the stored version
equals DB_VERSION if the initial stored version was 0 or DB_VERSION; when the
initial version was anything else, the migrator path leaves the stored
version unchanged at its initial value. -/
theorem c3_amended_ready_version :
    ∀ (env : Env) (db : DbState) (c : Conn),
      (DBConnectionPromise env (mkInitial db)).2 = Except.ok c →
      (db.version = 0 ∨ db.version = DB_VERSION →
          (DBConnectionPromise env (mkInitial db)).1.world.db.version = DB_VERSION)
      ∧ (db.version ≠ 0 → db.version ≠ DB_VERSION →
          (DBConnectionPromise env (mkInitial db)).1.world.db.version = db.version) := by
  intro env db c h
  have h2 : (_openDatabaseConnection env (mkInitial db).world).2 = Except.ok c := h
  by_cases ho : env.openOk = true
  · rcases hi : (_dbInit env (mkInitial db).world.db).2 with e | m
    · rw [openDB_err_spec env (mkInitial db).world e ho hi] at h2
      exact Except.noConfusion h2
    · have hw := openDB_ok_spec env (mkInitial db).world m ho hi
      have hworld : (DBConnectionPromise env (mkInitial db)).1.world.db
          = (_dbInit env (mkInitial db).world.db).1 := by
        rw [getter_initial_world, hw]
      have hv : (_dbInit env (mkInitial db).world.db).1.version
          = if db.version = 0 ∨ db.version = DB_VERSION then DB_VERSION
            else db.version := by
        rw [mkInitial_world_db] at hi ⊢
        exact dbInit_ok_version env db m hi
      constructor
      · intro hcase
        rw [hworld, hv, if_pos hcase]
      · intro hh0 hh1
        rw [hworld, hv, if_neg (by tauto)]
  · rw [openDB_fail_spec env (mkInitial db).world (by simpa using ho)] at h2
    exact Except.noConfusion h2

/-- Witness for the amended C3 on a fresh store. -/
theorem c3_amended_ready_version_witness :
    (DBConnectionPromise allOkEnv (mkInitial freshDb)).1.world.db.version = DB_VERSION :=
  (c3_amended_ready_version allOkEnv freshDb { isMigrated := true } (by decide)).1
    (Or.inl rfl)

lemma freshDb_version : freshDb.version = 0 := rfl

/-- Claim C5: acquiring on a fresh store at version 0 (with every external
operation succeeding) leaves every catalog table and every catalog index
existing and the stored version at DB_VERSION; the index statements are all
issued as CREATE INDEX IF NOT EXISTS. -/
theorem c5_fresh_acquire_creates_catalog :
    ∀ (env : Env),
      env.openOk = true → env.readVersionOk = true → (∀ i, env.execOk i = true) →
      (DBConnectionPromise env (mkInitial freshDb)).1.world.db
        = { version := DB_VERSION,
            tables := ["squirrel_tabs", "squirrel_sessions", "squirrel_sessions_tabs"],
            indices := ["squirrel_tabs_timestamp_index",
                        "squirrel_sessions_timestamp_index",
                        "squirrel_sessions_tabs_tab_index",
                        "squirrel_sessions_tabs_session_index"] }
      ∧ (DBConnectionPromise env (mkInitial freshDb)).2 = Except.ok { isMigrated := true }
      ∧ (∀ p ∈ SCHEMA_indices, ∃ rest : String,
          indexStatement p.1 p.2 = "CREATE INDEX IF NOT EXISTS " ++ rest) := by
  intro env ho hr hex
  have hcreate : _dbCreate env.execOk freshDb = _dbCreate (fun _ => true) freshDb := by
    unfold _dbCreate
    rw [runBatch_congr (fun i => hex i) 0 freshDb dbCreateOps]
  have hconc : _dbCreate (fun _ => true) freshDb
      = ({ version := DB_VERSION,
           tables := ["squirrel_tabs", "squirrel_sessions", "squirrel_sessions_tabs"],
           indices := ["squirrel_tabs_timestamp_index",
                       "squirrel_sessions_timestamp_index",
                       "squirrel_sessions_tabs_tab_index",
                       "squirrel_sessions_tabs_session_index"] }, Except.ok ()) := by
    decide
  have hd : _dbInit env freshDb
      = ((_dbCreate env.execOk freshDb).1,
         Except.map (fun _ => true) (_dbCreate env.execOk freshDb).2) := by
    simp [_dbInit, hr, freshDb_version]
  have hinit : _dbInit env freshDb
      = ({ version := DB_VERSION,
           tables := ["squirrel_tabs", "squirrel_sessions", "squirrel_sessions_tabs"],
           indices := ["squirrel_tabs_timestamp_index",
                       "squirrel_sessions_timestamp_index",
                       "squirrel_sessions_tabs_tab_index",
                       "squirrel_sessions_tabs_session_index"] }, Except.ok true) := by
    rw [hd, hcreate, hconc]
    rfl
  have hi : (_dbInit env (mkInitial freshDb).world.db).2 = Except.ok true := by
    rw [mkInitial_world_db, hinit]
  have hw := openDB_ok_spec env (mkInitial freshDb).world true ho hi
  refine ⟨?_, ?_, ?_⟩
  · rw [getter_initial_world, hw]
    show (_dbInit env (mkInitial freshDb).world.db).1 = _
    rw [mkInitial_world_db, hinit]
  · rw [getter_initial_outcome, hw]
  · intro p hp
    fin_cases hp
    · exact ⟨"squirrel_tabs_timestamp_index ON squirrel_tabs(timestamp)", rfl⟩
    · exact ⟨"squirrel_sessions_timestamp_index ON squirrel_sessions(timestamp)", rfl⟩
    · exact ⟨"squirrel_sessions_tabs_tab_index ON squirrel_sessions_tabs(tab_id)", rfl⟩
    · exact ⟨"squirrel_sessions_tabs_session_index ON squirrel_sessions_tabs(session_id)", rfl⟩

/-- Witness for C5 at a concrete all-success environment. -/
theorem c5_fresh_acquire_creates_catalog_witness :
    (DBConnectionPromise allOkEnv (mkInitial freshDb)).1.world.db
      = { version := DB_VERSION,
          tables := ["squirrel_tabs", "squirrel_sessions", "squirrel_sessions_tabs"],
          indices := ["squirrel_tabs_timestamp_index",
                      "squirrel_sessions_timestamp_index",
                      "squirrel_sessions_tabs_tab_index",
                      "squirrel_sessions_tabs_session_index"] }
    ∧ (DBConnectionPromise allOkEnv (mkInitial freshDb)).2
        = Except.ok { isMigrated := true } :=
  ⟨(c5_fresh_acquire_creates_catalog allOkEnv rfl rfl (fun _ => rfl)).1,
   (c5_fresh_acquire_creates_catalog allOkEnv rfl rfl (fun _ => rfl)).2.1⟩

/-- Claim C6: if `_dbInit` fails after a successful open, the connection is
closed (the observer is not registered), the acquisition surfaces exactly
that error, and every caller of the getter receives that same single error —
no connection is handed out. -/
theorem c6_init_failure_atomic :
    ∀ (env : Env) (db : DbState) (e : DbError),
      env.openOk = true →
      (_dbInit env db).2 = Except.error e →
      (_openDatabaseConnection env (mkInitial db).world).2 = Except.error e
      ∧ (_openDatabaseConnection env (mkInitial db).world).1.connOpen = false
      ∧ (_openDatabaseConnection env (mkInitial db).world).1.observerRegistered = false
      ∧ (∀ (n : Nat) (r : Except DbError Conn),
          r ∈ (runCalls env n (mkInitial db)).2 → r = Except.error e) := by
  intro env db e ho hi
  have hi' : (_dbInit env (mkInitial db).world.db).2 = Except.error e := by
    rw [mkInitial_world_db]
    exact hi
  have hw := openDB_err_spec env (mkInitial db).world e ho hi'
  refine ⟨by rw [hw], by rw [hw], by rw [hw]; rfl, ?_⟩
  intro n r hr
  cases n with
  | zero => simp [runCalls] at hr
  | succ n =>
      rw [runCalls_succ_eq] at hr
      have hout : (DBConnectionPromise env (mkInitial db)).2 = Except.error e := by
        rw [getter_initial_outcome, hw]
      rw [hout] at hr
      exact List.eq_of_mem_replicate hr

/-- Witness for C6: the open succeeds but the version read fails. -/
theorem c6_init_failure_atomic_witness :
    (_openDatabaseConnection failReadEnv (mkInitial freshDb).world).2
        = Except.error DbError.versionReadError
    ∧ (_openDatabaseConnection failReadEnv (mkInitial freshDb).world).1.connOpen = false :=
  ⟨(c6_init_failure_atomic failReadEnv freshDb DbError.versionReadError rfl rfl).1,
   (c6_init_failure_atomic failReadEnv freshDb DbError.versionReadError rfl rfl).2.1⟩

/-- Claim C7 (code bug): `getDbMigrationPromise` reads
`this._dbMigrationPromiseDeferred.promise`, but that field is never assigned
anywhere in the module, so after any number of getter accesses — in
particular after the acquisition has settled — the call throws a TypeError
instead of yielding the migration flag. -/
theorem c7_migration_promise_getter_throws :
    ∀ (env : Env) (db : DbState) (n : Nat),
      getDbMigrationPromise ((runCalls env n (mkInitial db)).1)
        = Except.error JSError.typeError := by
  intro env db n
  have hdef : ((runCalls env n (mkInitial db)).1).dbMigrationPromiseDeferred = none := by
    cases n with
    | zero => rfl
    | succ n =>
        rw [runCalls_succ_eq]
        show (DBConnectionPromise env (mkInitial db)).1.dbMigrationPromiseDeferred = none
        rw [DBConnectionPromise_deferred]
        rfl
  simp [getDbMigrationPromise, hdef]

/-- Claim C8: the teardown observer is one-shot and registered at most once —
firing with no registration (never-acquired, or already fired) is a no-op;
firing with a registration unsubscribes and closes exactly once; any trace of
getter calls registers the observer at most once, and registration happens
exactly on a successful open. -/
theorem c8_teardown_oneshot_registration :
    (∀ (w : World), w.observerRegistered = false → fireTeardown w = w)
    ∧ (∀ (w : World), fireTeardown (fireTeardown w) = fireTeardown w)
    ∧ (∀ (w : World), w.observerRegistered = true →
        fireTeardown w
          = { w with observerRegistered := false, connOpen := false,
                     closeCount := w.closeCount + 1 })
    ∧ (∀ (db : DbState), fireTeardown ((mkInitial db).world) = (mkInitial db).world)
    ∧ (∀ (env : Env) (db : DbState) (n : Nat),
        ((runCalls env n (mkInitial db)).1.world).regCount ≤ 1)
    ∧ (∀ (env : Env) (w : World) (c : Conn),
        (_openDatabaseConnection env w).2 = Except.ok c →
        (_openDatabaseConnection env w).1.observerRegistered = true
        ∧ (_openDatabaseConnection env w).1.regCount = w.regCount + 1) := by
  refine ⟨?_, ?_, ?_, ?_, ?_, ?_⟩
  · intro w h
    simp [fireTeardown, h]
  · intro w
    by_cases h : w.observerRegistered = true
    · simp [fireTeardown, h]
    · simp [fireTeardown, h]
  · intro w h
    simp [fireTeardown, h]
  · intro db
    rfl
  · intro env db n
    cases n with
    | zero => exact Nat.zero_le 1
    | succ n =>
        rw [runCalls_succ_eq]
        show ((_openDatabaseConnection env (mkInitial db).world).1).regCount ≤ 1
        have h := openDB_regCount_le env (mkInitial db).world
        simpa [mkInitial] using h
  · intro env w c h
    by_cases ho : env.openOk = true
    · rcases hi : (_dbInit env w.db).2 with e | m
      · rw [openDB_err_spec env w e ho hi] at h
        exact Except.noConfusion h
      · rw [openDB_ok_spec env w m ho hi]
        exact ⟨rfl, rfl⟩
    · rw [openDB_fail_spec env w (by simpa using ho)] at h
      exact Except.noConfusion h

/-- Witness for C8 at a concrete registered world and a successful open. -/
theorem c8_teardown_oneshot_registration_witness :
    fireTeardown openedWorld
      = { openedWorld with observerRegistered := false, connOpen := false,
                           closeCount := openedWorld.closeCount + 1 }
    ∧ (_openDatabaseConnection allOkEnv (mkInitial freshDb).world).1.observerRegistered
        = true :=
  ⟨c8_teardown_oneshot_registration.2.2.1 openedWorld rfl,
   (c8_teardown_oneshot_registration.2.2.2.2.2 allOkEnv (mkInitial freshDb).world
      { isMigrated := true } (by decide)).1⟩
